import Mathlib

/-!
Verification of the OAuth token lifecycle and Graph request layer of the
outlook-mcp-server repository: token cache persistence and refresh
(src/auth/token_manager.py), the CSRF state-token map and the OAuth callback
handler (src/outlook_auth_server.py), the Graph API response handling and
query-parameter processing (src/utils/graph_api.py), and the progressive
mail-search orchestrator (src/mail/search.py).

Python dictionaries are embedded as association lists or structures, machine
time as `Int` (Unix seconds), network and filesystem effects as explicit
oracle arguments, and exceptions as `Option`/`Except` results.
-/

namespace OutlookMcp

/-- A persisted credential record: the decoded JSON content of the token cache
file.  `refresh_token` and `expires_at` are `Option` because the Python code
reads them with `tokens.get("refresh_token")` and a `"expires_at" in tokens`
key test, so either may be absent. -/
structure Tokens where
  access_token : String
  refresh_token : Option String
  expires_at : Option Int
  deriving Repr, DecidableEq

/-- The token cache file: decoded JSON contents (`none` means the file is
absent) and its permission bits (`none` means never explicitly set).  JSON
serialisation (`json.dump` / `json.load`) is modelled as the identity, so the
file contents are the record itself. -/
structure FileState where
  contents : Option Tokens
  mode : Option Nat
  deriving Repr, DecidableEq

/-- TOKEN_FILE_MODE = stat.S_IRUSR | stat.S_IWUSR
(src/auth/token_manager.py:17). -/
def TOKEN_FILE_MODE : Nat := Nat.lor 0o400 0o200

/-- load_token_cache (src/auth/token_manager.py:20-35): returns the decoded
file contents; an absent file (or any read failure) yields `none`. -/
def load_token_cache (fs : FileState) : Option Tokens :=
  fs.contents

/-- The places the `open(path, "w")` / `json.dump` / `os.chmod` sequence of
save_token_cache can raise, each leaving the file in a different state:
`openErr` (the open itself fails, the file is untouched), `dumpErr` (the open
already truncated the file and the dump then fails, leaving it truncated or
partial — unparsable), `chmodErr` (the record was fully written but the
permission set fails). -/
inductive SaveErr where
  | openErr
  | dumpErr
  | chmodErr
  deriving Repr, DecidableEq

/-- save_token_cache (src/auth/token_manager.py:38-55): opens the path for
writing (truncating it), dumps the record as JSON, then sets the file mode to
TOKEN_FILE_MODE; any exception is caught and reported as `false`, with the
file left as the failing stage left it (`contents := none` models a
truncated or partially written file, which load_token_cache cannot parse). -/
def save_token_cache (tokens : Tokens) (fs : FileState)
    (err : Option SaveErr) : Bool × FileState :=
  match err with
  | some .openErr => (false, fs)
  | some .dumpErr => (false, { contents := none, mode := fs.mode })
  | some .chmodErr => (false, { contents := some tokens, mode := fs.mode })
  | none => (true, { contents := some tokens, mode := some TOKEN_FILE_MODE })

/-- is_token_expired (src/auth/token_manager.py:58-65): true when the record
is absent, has no `expires_at`, or `now >= expires_at - 300`. -/
def is_token_expired (tokens : Option Tokens) (now : Int) : Bool :=
  match tokens with
  | none => true
  | some t =>
    match t.expires_at with
    | none => true
    | some e => decide (e - 300 ≤ now)

/-- A successful token response from the identity provider's token endpoint
(the fields of the JSON body that refresh_access_token uses).  `expires_in`
is `Option` because the code reads it with `result.get("expires_in", 3600)`. -/
structure RefreshOutcome where
  access_token : String
  refresh_token : Option String
  expires_in : Option Int
  deriving Repr, DecidableEq

/-- refresh_access_token (src/auth/token_manager.py:80-122).
`providerResult = none` models a provider-reported error or a network error
(both return `None` in the code).  On provider success the code sets
`expires_at = now + expires_in (default 3600)`, saves via save_token_cache,
and returns the new record only when the save succeeded. -/
def refresh_access_token (providerResult : Option RefreshOutcome) (now : Int)
    (fs : FileState) (saveErr : Option SaveErr) : Option Tokens × FileState :=
  match providerResult with
  | none => (none, fs)
  | some r =>
    let result : Tokens :=
      { access_token := r.access_token
        refresh_token := r.refresh_token
        expires_at := some (now + r.expires_in.getD 3600) }
    match save_token_cache result fs saveErr with
    | (true, fs') => (some result, fs')
    | (false, fs') => (none, fs')

/-- get_valid_token (src/auth/token_manager.py:125-148).  Returns the access
token (or `none`), the resulting file state, and a flag recording whether a
refresh network call was attempted. -/
def get_valid_token (fs : FileState) (now : Int)
    (providerResult : Option RefreshOutcome) (saveErr : Option SaveErr) :
    Option String × FileState × Bool :=
  match load_token_cache fs with
  | none => (none, fs, false)
  | some tokens =>
    if is_token_expired (some tokens) now then
      match tokens.refresh_token with
      | none => (none, fs, false)
      | some _ =>
        match refresh_access_token providerResult now fs saveErr with
        | (some newTokens, fs') => (some newTokens.access_token, fs', true)
        | (none, fs') => (none, fs', true)
    else (some tokens.access_token, fs, false)

/-! CSRF state tokens (src/outlook_auth_server.py).  The module-level dict
`_state_tokens : Dict[str, float]` (token -> issuance timestamp) is embedded
as an association list with unique keys; dictionary lookup, deletion and
assignment are `lookupKey`, `removeKey` and cons-after-remove. -/

/-- Association-list embedding of Python dictionary lookup. -/
def lookupKey {β : Type} (k : String) : List (String × β) → Option β
  | [] => none
  | p :: rest => if p.1 = k then some p.2 else lookupKey k rest

/-- Association-list embedding of Python dictionary key deletion
(`del d[k]` / `d.pop(k)`). -/
def removeKey {β : Type} (k : String) : List (String × β) → List (String × β)
  | [] => []
  | p :: rest => if p.1 = k then removeKey k rest else p :: removeKey k rest

/-- The in-memory CSRF state map `_state_tokens`. -/
abbrev StateMap := List (String × Int)

/-- STATE_TOKEN_EXPIRY (src/outlook_auth_server.py:29). -/
def STATE_TOKEN_EXPIRY : Int := 600

/-- The cleanup loop in generate_state_token: delete every entry with
`current_time - v > STATE_TOKEN_EXPIRY`. -/
def prune_expired (now : Int) : StateMap → StateMap
  | [] => []
  | p :: rest =>
    if now - p.2 > STATE_TOKEN_EXPIRY then prune_expired now rest
    else p :: prune_expired now rest

/-- generate_state_token (src/outlook_auth_server.py:32-43): prunes expired
entries, then records the freshly generated token (here an explicit argument,
standing for `secrets.token_urlsafe(32)`) with the current time.  Returns the
updated map. -/
def generate_state_token (token : String) (now : Int) (m : StateMap) : StateMap :=
  (token, now) :: removeKey token (prune_expired now m)

/-- validate_state_token (src/outlook_auth_server.py:46-55): unknown tokens
fail and leave the map unchanged; a known token is popped from the map and is
valid iff `now - timestamp <= STATE_TOKEN_EXPIRY`.  Returns the verdict and
the updated map. -/
def validate_state_token (token : String) (now : Int) (m : StateMap) :
    Bool × StateMap :=
  match lookupKey token m with
  | none => (false, m)
  | some timestamp =>
    if now - timestamp > STATE_TOKEN_EXPIRY then (false, removeKey token m)
    else (true, removeKey token m)

/-! The `/auth/callback` handler (src/outlook_auth_server.py:222-271). -/

/-- Python string-option truthiness: `None` and the empty string are falsy. -/
def truthy : Option String → Bool
  | none => false
  | some s => decide (s ≠ "")

/-- The five possible responses of auth_callback. -/
inductive CallbackResponse where
  | securityError
  | authErrorPage
  | missingCode
  | successPage
  | exchangeError
  deriving Repr, DecidableEq

/-- The HTTP status each auth_callback response is served with. -/
def statusOf : CallbackResponse → Nat
  | .securityError => 403
  | .authErrorPage => 400
  | .missingCode => 400
  | .successPage => 200
  | .exchangeError => 500

/-- Result of one auth_callback invocation: the response page, whether
exchange_code_for_tokens was invoked, and the CSRF map afterwards. -/
structure CallbackResult where
  response : CallbackResponse
  exchangeAttempted : Bool
  stateMap : StateMap
  deriving Repr, DecidableEq

/-- The part of auth_callback after the CSRF check: `error` present -> 400
page; no `code` -> 400 missing-code page; otherwise exchange the code
(`exchangeOk` models whether exchange_code_for_tokens raised). -/
def callback_after_state (code error_p : Option String) (m : StateMap)
    (exchangeOk : Bool) : CallbackResult :=
  if truthy error_p then
    { response := .authErrorPage, exchangeAttempted := false, stateMap := m }
  else if truthy code = false then
    { response := .missingCode, exchangeAttempted := false, stateMap := m }
  else if exchangeOk then
    { response := .successPage, exchangeAttempted := true, stateMap := m }
  else
    { response := .exchangeError, exchangeAttempted := true, stateMap := m }

/-- auth_callback (src/outlook_auth_server.py:222-271): the CSRF check is
`if state and not validate_state_token(state)`, so validation runs only for a
truthy `state`, and a failing validation short-circuits to the 403 page. -/
def auth_callback (code state error_p : Option String) (now : Int)
    (m : StateMap) (exchangeOk : Bool) : CallbackResult :=
  match state with
  | some s =>
    if s = "" then callback_after_state code error_p m exchangeOk
    else
      match validate_state_token s now m with
      | (false, m') =>
        { response := .securityError, exchangeAttempted := false, stateMap := m' }
      | (true, m') => callback_after_state code error_p m' exchangeOk
  | none => callback_after_state code error_p m exchangeOk

/-! Graph request client (src/utils/graph_api.py). -/

/-- The distinct failure conditions call_graph_api raises: a JSON decode
failure on a success status, the bare "UNAUTHORIZED" condition for status
401, and the generic failure carrying the status code and raw body. -/
inductive GraphApiError where
  | parseError (msg : String)
  | unauthorized
  | apiError (status : Nat) (body : String)
  deriving Repr, DecidableEq

/-- The response handling of call_graph_api (src/utils/graph_api.py:84-95).
`parse` stands for `json.loads`; a `.error` result models
`json.JSONDecodeError` carrying its message. -/
def handle_graph_response {α : Type} (parse : String → Except String α)
    (status : Nat) (body : String) : Except GraphApiError α :=
  if 200 ≤ status ∧ status < 300 then
    match parse body with
    | .ok parsed => .ok parsed
    | .error e => .error (.parseError ("Error parsing API response: " ++ e))
  else if status = 401 then .error .unauthorized
  else .error (.apiError status body)

/-- The query-parameter handling of call_graph_api
(src/utils/graph_api.py:46-65).  `urlencode` and `quote` stand for
`urllib.parse.urlencode` / `urllib.parse.quote`.  Returns the query string
and the caller's dictionary after the call: the code pops "$filter" out of
the dictionary it was handed, so the mutated dictionary is part of the
observable result. -/
def process_query_params (urlencode : List (String × String) → String)
    (quote : String → String) (query_params : List (String × String)) :
    String × List (String × String) :=
  if query_params.isEmpty then ("", query_params)
  else
    let filter_value := lookupKey "$filter" query_params
    let remaining := removeKey "$filter" query_params
    let params := urlencode remaining
    let params' :=
      match filter_value with
      | some fv =>
        if fv ≠ "" then
          if params ≠ "" then params ++ "&$filter=" ++ quote fv
          else "$filter=" ++ quote fv
        else params
      | none => params
    ((if params' ≠ "" then "?" ++ params' else ""), remaining)

/-! Progressive search orchestrator (src/mail/search.py). -/

/-- EMAIL_SELECT_FIELDS (src/config.py). -/
def EMAIL_SELECT_FIELDS : String :=
  "id,subject,from,toRecipients,ccRecipients,receivedDateTime,bodyPreview,hasAttachments,importance,isRead"

/-- The search-term bundle handed to progressive_search (dict keys
"query", "from", "to", "subject"). -/
structure SearchTerms where
  query : String
  from_addr : String
  to_addr : String
  subject : String
  deriving Repr, DecidableEq

/-- The boolean filter terms (dict keys "hasAttachments", "unreadOnly"). -/
structure FilterTerms where
  hasAttachments : Bool
  unreadOnly : Bool
  deriving Repr, DecidableEq

/-- The query-parameter dictionaries progressive_search builds: $top,
$select, $orderby always present, $search and $filter optional. -/
structure SearchParams where
  top : Nat
  select : String
  orderby : String
  search : Option String
  filter : Option String
  deriving Repr, DecidableEq

/-- add_boolean_filters (src/mail/search.py): adds a $filter joining
"hasAttachments eq true" and "isRead eq false" with " and " when any boolean
filter is set. -/
def add_boolean_filters (params : SearchParams) (filter_terms : FilterTerms) :
    SearchParams :=
  let filter_conditions :=
    (if filter_terms.hasAttachments then ["hasAttachments eq true"] else []) ++
    (if filter_terms.unreadOnly then ["isRead eq false"] else [])
  if filter_conditions.isEmpty then params
  else { params with filter := some (String.intercalate " and " filter_conditions) }

/-- build_search_params (src/mail/search.py): KQL clauses in source order
(query unprefixed, then subject, from, to as field:"value"), joined by a
space into $search when non-empty, plus the boolean filters. -/
def build_search_params (search_terms : SearchTerms)
    (filter_terms : FilterTerms) (count : Nat) : SearchParams :=
  let kql_terms :=
    (if search_terms.query ≠ "" then [search_terms.query] else []) ++
    (if search_terms.subject ≠ "" then
      ["subject:\"" ++ search_terms.subject ++ "\""] else []) ++
    (if search_terms.from_addr ≠ "" then
      ["from:\"" ++ search_terms.from_addr ++ "\""] else []) ++
    (if search_terms.to_addr ≠ "" then
      ["to:\"" ++ search_terms.to_addr ++ "\""] else [])
  let base : SearchParams :=
    { top := count
      select := EMAIL_SELECT_FIELDS
      orderby := "receivedDateTime desc"
      search := if kql_terms.isEmpty then none
                else some (String.intercalate " " kql_terms)
      filter := none }
  add_boolean_filters base filter_terms

/-- The `search_terms[term]` lookup used by the single-term loop. -/
def get_search_term (search_terms : SearchTerms) (term : String) : String :=
  if term = "subject" then search_terms.subject
  else if term = "from" then search_terms.from_addr
  else if term = "to" then search_terms.to_addr
  else if term = "query" then search_terms.query
  else ""

/-- The simplified parameters of a single-term attempt: a general query is
quoted as-is, a specific field uses field:"value" KQL syntax, plus the
boolean filters. -/
def single_term_params (term value : String) (filter_terms : FilterTerms)
    (count : Nat) : SearchParams :=
  let base : SearchParams :=
    { top := count
      select := EMAIL_SELECT_FIELDS
      orderby := "receivedDateTime desc"
      search := some (if term = "query" then "\"" ++ value ++ "\""
                      else term ++ ":\"" ++ value ++ "\"")
      filter := none }
  add_boolean_filters base filter_terms

/-- The parameters of the filters-only attempt and of the final recent-emails
fallback, before any boolean filters are added. -/
def basic_params (count : Nat) : SearchParams :=
  { top := count
    select := EMAIL_SELECT_FIELDS
    orderby := "receivedDateTime desc"
    search := none
    filter := none }

/-- search_priority (src/mail/search.py:111). -/
def search_priority : List String := ["subject", "from", "to", "query"]

/-- The external Graph API, indexed by the ordinal of the call within one
progressive_search invocation (successive calls may answer differently):
returns the response's "value" list, or `.error` for a raised exception. -/
abbrev GraphApi := Nat → SearchParams → Except String (List String)

/-- The `_searchInfo` metadata attached by the final fallback. -/
structure SearchInfo where
  attemptsCount : Nat
  strategies : List String
  originalTerms : SearchTerms
  filterTerms : FilterTerms
  deriving Repr, DecidableEq

/-- A search response as progressive_search returns it: the "value" list and
the optional `_searchInfo` field. -/
structure SearchResponse where
  value : List String
  searchInfo : Option SearchInfo
  deriving Repr, DecidableEq

/-- Decidable equality for `Except`, used to evaluate concrete search
outcomes. -/
instance {ε α : Type} [DecidableEq ε] [DecidableEq α] :
    DecidableEq (Except ε α) := fun x y => by
  cases x with
  | ok a =>
    cases y with
    | ok b => exact decidable_of_iff (a = b) (by simp)
    | error f => exact isFalse (by simp)
  | error e =>
    cases y with
    | ok b => exact isFalse (by simp)
    | error f => exact decidable_of_iff (e = f) (by simp)

/-- The single-term loop of progressive_search (step 2): for each term of
`search_priority` with a non-empty value, record the strategy, call the API,
and stop at the first non-empty result; exceptions and empty results move to
the next term.  Returns the found value (if any), the next call index, and
the accumulated strategy list. -/
def try_single_terms (api : GraphApi) (search_terms : SearchTerms)
    (filter_terms : FilterTerms) (count : Nat) :
    List String → Nat → List String →
    Option (List String) × Nat × List String
  | [], callIdx, attempts => (none, callIdx, attempts)
  | term :: rest, callIdx, attempts =>
    if get_search_term search_terms term ≠ "" then
      let attempts' := attempts ++ ["single-term-" ++ term]
      match api callIdx
          (single_term_params term (get_search_term search_terms term)
            filter_terms count) with
      | .ok v =>
        if v.isEmpty then
          try_single_terms api search_terms filter_terms count rest
            (callIdx + 1) attempts'
        else (some v, callIdx + 1, attempts')
      | .error _ =>
        try_single_terms api search_terms filter_terms count rest
          (callIdx + 1) attempts'
    else try_single_terms api search_terms filter_terms count rest callIdx attempts

/-- Step 4 of progressive_search: the recent-emails fallback.  Its response
gets the `_searchInfo` metadata; an exception here propagates. -/
def final_fallback (api : GraphApi) (search_terms : SearchTerms)
    (filter_terms : FilterTerms) (count : Nat) (callIdx : Nat)
    (attempts : List String) : Except String SearchResponse × List String :=
  let attempts' := attempts ++ ["recent-emails"]
  match api callIdx (basic_params count) with
  | .ok v =>
    (.ok { value := v
           searchInfo := some { attemptsCount := attempts'.length
                                strategies := attempts'
                                originalTerms := search_terms
                                filterTerms := filter_terms } },
     attempts')
  | .error e => (.error e, attempts')

/-- Step 3 of progressive_search: when a boolean filter is set, try a
filters-only search and return its response (even when empty); an exception
falls through to the final fallback, which is also taken directly when no
boolean filter is set. -/
def boolean_filter_step (api : GraphApi) (search_terms : SearchTerms)
    (filter_terms : FilterTerms) (count : Nat) (callIdx : Nat)
    (attempts : List String) : Except String SearchResponse × List String :=
  if filter_terms.hasAttachments || filter_terms.unreadOnly then
    let attempts' := attempts ++ ["boolean-filters-only"]
    match api callIdx (add_boolean_filters (basic_params count) filter_terms) with
    | .ok v => (.ok { value := v, searchInfo := none }, attempts')
    | .error _ =>
      final_fallback api search_terms filter_terms count (callIdx + 1) attempts'
  else final_fallback api search_terms filter_terms count callIdx attempts

/-- progressive_search (src/mail/search.py:72-197).  Returns the response (or
the propagated final-step exception) together with the internally tracked
`search_attempts` strategy list.  Only the final fallback attaches
`_searchInfo` to the response; every earlier successful step returns the API
response as-is. -/
def progressive_search (api : GraphApi) (search_terms : SearchTerms)
    (filter_terms : FilterTerms) (count : Nat) :
    Except String SearchResponse × List String :=
  let attempts := ["combined-search"]
  let combined :=
    match api 0 (build_search_params search_terms filter_terms count) with
    | .ok v => if v.isEmpty then none else some v
    | .error _ => none
  match combined with
  | some v => (.ok { value := v, searchInfo := none }, attempts)
  | none =>
    match try_single_terms api search_terms filter_terms count
        search_priority 1 attempts with
    | (some v, _, attempts') => (.ok { value := v, searchInfo := none }, attempts')
    | (none, callIdx, attempts') =>
      boolean_filter_step api search_terms filter_terms count callIdx attempts'

/-! Helper lemmas about the association-list dictionary operations. -/

/-- After deleting a key, looking it up yields nothing. -/
theorem lookupKey_removeKey_self {β : Type} (k : String)
    (l : List (String × β)) : lookupKey k (removeKey k l) = none := by
  induction l with
  | nil => rfl
  | cons p rest ih =>
    by_cases h : p.1 = k
    · simpa [removeKey, h] using ih
    · simpa [removeKey, lookupKey, h] using ih

/-- Deleting one key leaves every other key's binding unchanged. -/
theorem lookupKey_removeKey_ne {β : Type} (k k' : String)
    (l : List (String × β)) (h : k' ≠ k) :
    lookupKey k' (removeKey k l) = lookupKey k' l := by
  have hkk : ¬(k = k') := fun hh => h hh.symm
  induction l with
  | nil => rfl
  | cons p rest ih =>
    by_cases hp : p.1 = k
    · simpa [removeKey, lookupKey, hp, hkk] using ih
    · by_cases hq : p.1 = k'
      · simp [removeKey, lookupKey, hp, hq, h]
      · simpa [removeKey, lookupKey, hp, hq] using ih

/-! Claim C1 -/

/-- C1: for a cached credential record that carries a refresh token,
get_valid_token returns the stored access token with no refresh network call
iff `expires_at > now + 300`; whenever `expires_at <= now + 300` (or
`expires_at` is absent) it attempts a refresh instead of returning the stored
token directly. -/
theorem get_valid_token_fresh_iff (tokens : Tokens) (md : Option Nat)
    (now : Int) (providerResult : Option RefreshOutcome)
    (saveErr : Option SaveErr)
    (hrt : tokens.refresh_token.isSome = true) :
    (((get_valid_token ⟨some tokens, md⟩ now providerResult saveErr).1 =
        some tokens.access_token ∧
      (get_valid_token ⟨some tokens, md⟩ now providerResult saveErr).2.2 = false) ↔
      (∃ e, tokens.expires_at = some e ∧ now + 300 < e)) ∧
    ((∀ e, tokens.expires_at = some e → e ≤ now + 300) →
      (get_valid_token ⟨some tokens, md⟩ now providerResult saveErr).2.2 = true) := by
  obtain ⟨rt, hrt'⟩ := Option.isSome_iff_exists.mp hrt
  rcases he : tokens.expires_at with _ | e
  · have hexp : is_token_expired (some tokens) now = true := by
      simp [is_token_expired, he]
    rcases hrr : refresh_access_token providerResult now ⟨some tokens, md⟩ saveErr
      with ⟨o, fs'⟩
    cases o <;> simp [get_valid_token, load_token_cache, hexp, hrt', hrr, he]
  · by_cases hlt : e - 300 ≤ now
    · have hexp : is_token_expired (some tokens) now = true := by
        simp [is_token_expired, he, hlt]
      rcases hrr : refresh_access_token providerResult now ⟨some tokens, md⟩ saveErr
        with ⟨o, fs'⟩
      cases o <;> simp [get_valid_token, load_token_cache, hexp, hrt', hrr, he] <;>
        omega
    · have hexp : is_token_expired (some tokens) now = false := by
        simp [is_token_expired, he]
        omega
      constructor
      · simp [get_valid_token, load_token_cache, hexp, he]
        omega
      · intro h
        have := h e rfl
        omega

/-- A concrete credential record for the C1 witness: expired at the chosen
evaluation time, with a refresh token present. -/
def c1_record : Tokens :=
  { access_token := "tokA", refresh_token := some "tokR", expires_at := some 100 }

/-- C1 witness: at time 0 the record `c1_record` (expiring at 100, within the
300-second buffer) makes get_valid_token attempt a refresh. -/
theorem get_valid_token_fresh_iff_witness :
    (get_valid_token ⟨some c1_record, none⟩ 0 none none).2.2 = true :=
  (get_valid_token_fresh_iff c1_record none 0 none none rfl).2
    (by intro e he; simp [c1_record] at he; omega)

/-! Claim C5 -/

/-- C5 counterexample: the cached record is expired, the provider refresh
succeeds with a fresh access token "newA", but persisting fails (here at the
chmod, after the record was written); get_valid_token then returns `none`,
not the fresh in-memory token, refuting the claim that the token may still
be used for the current operation. -/
theorem refresh_save_failure_cex :
    (get_valid_token
        ⟨some { access_token := "oldA", refresh_token := some "tokR",
                expires_at := some 100 },
          some TOKEN_FILE_MODE⟩ 0
        (some { access_token := "newA", refresh_token := some "tokR2",
                expires_in := some 3600 }) (some SaveErr.chmodErr)).1 = none ∧
    (get_valid_token
        ⟨some { access_token := "oldA", refresh_token := some "tokR",
                expires_at := some 100 },
          some TOKEN_FILE_MODE⟩ 0
        (some { access_token := "newA", refresh_token := some "tokR2",
                expires_in := some 3600 }) (some SaveErr.chmodErr)).1 ≠
      some "newA" := by
  constructor
  · rfl
  · decide

/-- C5 amended: when the provider refresh succeeds but persisting the new
record fails — whether at the open, at the JSON dump, or at the chmod — the
failure is fatal for the call: refresh_access_token returns `none` and
get_valid_token, on an expired record with a refresh token, returns `none`
rather than the freshly obtained in-memory access token. -/
theorem refresh_save_failure_fatal (r : RefreshOutcome) (now : Int)
    (tokens : Tokens) (md : Option Nat) (err : SaveErr)
    (hexp : is_token_expired (some tokens) now = true)
    (hrt : tokens.refresh_token.isSome = true) :
    (refresh_access_token (some r) now ⟨some tokens, md⟩ (some err)).1 = none ∧
    (get_valid_token ⟨some tokens, md⟩ now (some r) (some err)).1 = none := by
  obtain ⟨rt, hrt'⟩ := Option.isSome_iff_exists.mp hrt
  cases err <;>
    simp [refresh_access_token, save_token_cache, get_valid_token,
      load_token_cache, hexp, hrt']

/-- C5 amended witness: concrete expired record and provider result, with the
save failing at the JSON dump. -/
theorem refresh_save_failure_fatal_witness :
    (get_valid_token
        ⟨some { access_token := "oldA", refresh_token := some "tokR",
                expires_at := some 100 }, none⟩ 0
        (some { access_token := "newA", refresh_token := none,
                expires_in := none }) (some SaveErr.dumpErr)).1 = none :=
  (refresh_save_failure_fatal
    { access_token := "newA", refresh_token := none, expires_in := none } 0
    { access_token := "oldA", refresh_token := some "tokR",
      expires_at := some 100 } none SaveErr.dumpErr (by decide) rfl).2

/-! Claim C8 -/

/-- C8: saving a credential record and then loading it returns the very same
record (hence field-identical `access_token`, `refresh_token`, `expires_at`),
and the file's permission bits are exactly 0o600 (owner read/write only). -/
theorem save_load_roundtrip (tokens : Tokens) (fs : FileState) :
    (save_token_cache tokens fs none).1 = true ∧
    load_token_cache (save_token_cache tokens fs none).2 = some tokens ∧
    (save_token_cache tokens fs none).2.mode = some 0o600 := by
  refine ⟨rfl, rfl, ?_⟩
  show some TOKEN_FILE_MODE = some 0o600
  decide

/-! Claims C2 and C9 -/

/-- C2: a CSRF state token is valid exactly once and only within its
600-second window: after issuing `tok` at time `T`, validating it at any
`T' <= T + 600` succeeds; validating it a second time (at any time) fails;
validating at `T + 599` succeeds and at `T + 601` fails. -/
theorem state_token_one_time_window (m : StateMap) (tok : String)
    (T T' T'' : Int) (h : T' - T ≤ 600) :
    (validate_state_token tok T' (generate_state_token tok T m)).1 = true ∧
    (validate_state_token tok T''
        (validate_state_token tok T' (generate_state_token tok T m)).2).1 = false ∧
    (validate_state_token tok (T + 599) (generate_state_token tok T m)).1 = true ∧
    (validate_state_token tok (T + 601) (generate_state_token tok T m)).1 = false := by
  have hl : lookupKey tok (generate_state_token tok T m) = some T := by
    simp [generate_state_token, lookupKey]
  have hsnd : (validate_state_token tok T' (generate_state_token tok T m)).2 =
      removeKey tok (generate_state_token tok T m) := by
    simp only [validate_state_token, hl, apply_ite, ite_self]
  refine ⟨?_, ?_, ?_, ?_⟩
  · simp only [validate_state_token, hl, STATE_TOKEN_EXPIRY]
    rw [if_neg (by omega)]
  · rw [hsnd]
    simp [validate_state_token, lookupKey_removeKey_self]
  · simp only [validate_state_token, hl, STATE_TOKEN_EXPIRY]
    rw [if_neg (by omega)]
  · simp only [validate_state_token, hl, STATE_TOKEN_EXPIRY]
    rw [if_pos (by omega)]

/-- C2 witness: issue at time 0, validate at time 0 (true), validate again at
time 50 (false); the two boundary checks evaluate on the same concrete data. -/
theorem state_token_one_time_window_witness :
    (validate_state_token "t" 0 (generate_state_token "t" 0 [])).1 = true ∧
    (validate_state_token "t" 50
        (validate_state_token "t" 0 (generate_state_token "t" 0 [])).2).1 = false ∧
    (validate_state_token "t" (0 + 599) (generate_state_token "t" 0 [])).1 = true ∧
    (validate_state_token "t" (0 + 601) (generate_state_token "t" 0 [])).1 = false :=
  state_token_one_time_window [] "t" 0 0 50 (by decide)

/-- C9: validate_state_token consumes a known token regardless of the
verdict: after any call on a token present in the map, the token is gone from
the resulting map and every subsequent validation of it returns false. -/
theorem validate_consumes_known_token (m : StateMap) (tok : String)
    (now now' : Int) (h : (lookupKey tok m).isSome = true) :
    lookupKey tok (validate_state_token tok now m).2 = none ∧
    (validate_state_token tok now' (validate_state_token tok now m).2).1 = false ∧
    (validate_state_token tok now' (validate_state_token tok now m).2).2 =
      (validate_state_token tok now m).2 := by
  obtain ⟨ts, hts⟩ := Option.isSome_iff_exists.mp h
  have hsnd : (validate_state_token tok now m).2 = removeKey tok m := by
    simp only [validate_state_token, hts, apply_ite, ite_self]
  rw [hsnd]
  exact ⟨lookupKey_removeKey_self tok m,
    by simp [validate_state_token, lookupKey_removeKey_self],
    by simp [validate_state_token, lookupKey_removeKey_self]⟩

/-- C9 witness: validating the long-expired token "t" (issued at 0, checked
at 700) returns false, yet consumes the entry. -/
theorem validate_consumes_known_token_witness :
    lookupKey "t" (validate_state_token "t" 700 [("t", 0)]).2 = none ∧
    (validate_state_token "t" 800 (validate_state_token "t" 700 [("t", 0)]).2).1 =
      false ∧
    (validate_state_token "t" 800 (validate_state_token "t" 700 [("t", 0)]).2).2 =
      (validate_state_token "t" 700 [("t", 0)]).2 :=
  validate_consumes_known_token [("t", 0)] "t" 700 800 (by decide)

/-! Claims C3 and C4 -/

/-- C3: a callback whose (non-empty) `state` fails CSRF validation — unknown,
expired or already consumed — yields the 403 security-error response and
never attempts token exchange, whatever `code` and `error` carry. -/
theorem callback_invalid_state_403 (code error_p : Option String) (s : String)
    (now : Int) (m : StateMap) (exchangeOk : Bool) (hs : s ≠ "")
    (hv : (validate_state_token s now m).1 = false) :
    (auth_callback code (some s) error_p now m exchangeOk).response =
      CallbackResponse.securityError ∧
    statusOf (auth_callback code (some s) error_p now m exchangeOk).response = 403 ∧
    (auth_callback code (some s) error_p now m exchangeOk).exchangeAttempted =
      false := by
  rcases hvv : validate_state_token s now m with ⟨b, m'⟩
  rw [hvv] at hv
  have hb : b = false := hv
  subst hb
  simp [auth_callback, hs, hvv, statusOf]

/-- C3 witness: the token "x" is not in the (empty) CSRF map, so the callback
with `code` present is rejected with 403 and no exchange. -/
theorem callback_invalid_state_403_witness :
    (auth_callback (some "c") (some "x") none 0 [] true).response =
      CallbackResponse.securityError ∧
    statusOf (auth_callback (some "c") (some "x") none 0 [] true).response = 403 ∧
    (auth_callback (some "c") (some "x") none 0 [] true).exchangeAttempted = false :=
  callback_invalid_state_403 (some "c") none "x" 0 [] true (by decide) rfl

/-- C4 counterexample: with `state` absent, `code = "abc"` present and
`error = "access_denied"` also present, the handler serves the 400
authentication-error page and never attempts token exchange — refuting the
claim that whenever `state` is absent and a `code` is present the handler
proceeds to token exchange. -/
theorem callback_state_absent_error_cex :
    (auth_callback (some "abc") none (some "access_denied") 0 [] true).exchangeAttempted
      = false ∧
    (auth_callback (some "abc") none (some "access_denied") 0 [] true).response =
      CallbackResponse.authErrorPage := by
  constructor <;> rfl

/-- C4 amended: when `state` is absent (None or empty), CSRF validation is
skipped entirely — the map is untouched and the 403 branch is unreachable —
and if additionally no `error` parameter is present and a (non-empty) `code`
is present, the handler proceeds to token exchange with no state check. -/
theorem callback_state_absent_skips_csrf (code state error_p : Option String)
    (now : Int) (m : StateMap) (exchangeOk : Bool)
    (hstate : truthy state = false) :
    (auth_callback code state error_p now m exchangeOk).stateMap = m ∧
    (auth_callback code state error_p now m exchangeOk).response ≠
      CallbackResponse.securityError ∧
    (truthy error_p = false → truthy code = true →
      (auth_callback code state error_p now m exchangeOk).exchangeAttempted =
        true) := by
  have hcb : auth_callback code state error_p now m exchangeOk =
      callback_after_state code error_p m exchangeOk := by
    cases state with
    | none => rfl
    | some s =>
      have hs : s = "" := by
        by_contra hne
        simp [truthy, hne] at hstate
      simp [auth_callback, hs]
  rw [hcb]
  refine ⟨?_, ?_, ?_⟩
  · unfold callback_after_state
    split
    · rfl
    · split
      · rfl
      · split <;> rfl
  · unfold callback_after_state
    split
    · simp
    · split
      · simp
      · split <;> simp
  · intro he hc
    cases exchangeOk <;> simp [callback_after_state, he, hc]

/-- C4 amended witness: `state` absent, `code = "abc"`, no `error`: the
exchange is attempted, the CSRF map `[("s", 0)]` is untouched, no 403. -/
theorem callback_state_absent_skips_csrf_witness :
    (auth_callback (some "abc") none none 0 [("s", 0)] true).stateMap =
      [("s", 0)] ∧
    (auth_callback (some "abc") none none 0 [("s", 0)] true).exchangeAttempted =
      true :=
  ⟨(callback_state_absent_skips_csrf (some "abc") none none 0 [("s", 0)] true rfl).1,
   (callback_state_absent_skips_csrf (some "abc") none none 0 [("s", 0)] true rfl).2.2
     rfl (by decide)⟩

/-! Claim C7 -/

/-- C7: for every Graph API response, a 2xx status parses the body (a parse
failure being the distinct fatal parse error), status 401 yields the bare
unauthorized condition, and any other status yields an error carrying both
the status code and the raw body; the three conditions are pairwise
distinguishable constructors. -/
theorem graph_response_handling {α : Type} (parse : String → Except String α)
    (status : Nat) (body : String) :
    (200 ≤ status ∧ status < 300 →
      handle_graph_response parse status body =
        match parse body with
        | .ok v => .ok v
        | .error e =>
          .error (.parseError ("Error parsing API response: " ++ e))) ∧
    (status = 401 →
      handle_graph_response parse status body = .error .unauthorized) ∧
    (¬(200 ≤ status ∧ status < 300) → status ≠ 401 →
      handle_graph_response parse status body =
        .error (.apiError status body)) ∧
    (∀ (msg : String) (st : Nat) (bd : String),
      GraphApiError.unauthorized ≠ GraphApiError.parseError msg ∧
      GraphApiError.unauthorized ≠ GraphApiError.apiError st bd) := by
  refine ⟨?_, ?_, ?_, ?_⟩
  · intro h
    unfold handle_graph_response
    rw [if_pos h]
  · intro h
    subst h
    unfold handle_graph_response
    rw [if_neg (by omega), if_pos rfl]
  · intro h1 h2
    unfold handle_graph_response
    rw [if_neg h1, if_neg h2]
  · intro msg st bd
    exact ⟨by simp, by simp⟩

/-- C7 witness: concrete evaluations of the three branches with the identity
parser: 401 gives unauthorized, 404 gives the status-and-body error, and 200
returns the parsed body. -/
theorem graph_response_handling_witness :
    handle_graph_response (fun s => (Except.ok s : Except String String)) 401
      "denied" = Except.error GraphApiError.unauthorized ∧
    handle_graph_response (fun s => (Except.ok s : Except String String)) 404
      "missing" = Except.error (GraphApiError.apiError 404 "missing") ∧
    handle_graph_response (fun s => (Except.ok s : Except String String)) 200
      "body" = Except.ok "body" :=
  ⟨(graph_response_handling (fun s => Except.ok s) 401 "denied").2.1 rfl,
   (graph_response_handling (fun s => Except.ok s) 404 "missing").2.2.1
     (by omega) (by omega),
   (graph_response_handling (fun s => Except.ok s) 200 "body").1 (by omega)⟩

/-! Claim C10 -/

/-- C10: call_graph_api pops "$filter" out of the caller's query-params
dictionary: after the call the dictionary it was handed no longer binds
"$filter", while every other key's binding is unchanged. -/
theorem query_params_filter_popped
    (urlencode : List (String × String) → String) (quote : String → String)
    (qp : List (String × String)) :
    lookupKey "$filter" (process_query_params urlencode quote qp).2 = none ∧
    (∀ k, k ≠ "$filter" →
      lookupKey k (process_query_params urlencode quote qp).2 =
        lookupKey k qp) := by
  cases qp with
  | nil => exact ⟨rfl, fun k _ => rfl⟩
  | cons p rest =>
    have h2 : (process_query_params urlencode quote (p :: rest)).2 =
        removeKey "$filter" (p :: rest) := by
      simp [process_query_params]
    rw [h2]
    exact ⟨lookupKey_removeKey_self _ _,
      fun k hk => lookupKey_removeKey_ne _ _ _ hk⟩

/-- C10 witness: a dictionary with "$top" and "$filter" comes back without
"$filter" and with "$top" still bound to "10". -/
theorem query_params_filter_popped_witness :
    lookupKey "$filter"
      (process_query_params (fun _ => "") (fun s => s)
        [("$top", "10"), ("$filter", "isRead eq false")]).2 = none ∧
    lookupKey "$top"
      (process_query_params (fun _ => "") (fun s => s)
        [("$top", "10"), ("$filter", "isRead eq false")]).2 =
      lookupKey "$top" [("$top", "10"), ("$filter", "isRead eq false")] :=
  ⟨(query_params_filter_popped (fun _ => "") (fun s => s)
      [("$top", "10"), ("$filter", "isRead eq false")]).1,
   (query_params_filter_popped (fun _ => "") (fun s => s)
      [("$top", "10"), ("$filter", "isRead eq false")]).2 "$top" (by decide)⟩

/-! Claim C6 -/

/-- The C6 search terms: only `subject = "Invoice"`. -/
def c6_terms : SearchTerms :=
  { query := "", from_addr := "", to_addr := "", subject := "Invoice" }

/-- The C6 filter terms: no boolean filters set. -/
def c6_filters : FilterTerms := { hasAttachments := false, unreadOnly := false }

/-- A concrete Graph API for the C6 scenario: the first call (the combined
search) finds nothing, every later call returns two messages. -/
def c6_api : GraphApi := fun callIdx _ =>
  if callIdx = 0 then .ok [] else .ok ["m1", "m2"]

/-- The strategy record the claim says the returned response should carry. -/
def c6_claimed_info : SearchInfo :=
  { attemptsCount := 2
    strategies := ["combined-search", "single-term-subject"]
    originalTerms := c6_terms
    filterTerms := c6_filters }

/-- C6 counterexample: in the scenario (subject "Invoice", combined search
empty, subject-only search returning two messages) the orchestrator returns
the two results, and internally the attempts list is
["combined-search", "single-term-subject"], but the returned response carries
`searchInfo = none` — it does not record the attempted strategies, refuting
the claim that the returned response records them. -/
theorem progressive_search_no_info_cex :
    progressive_search c6_api c6_terms c6_filters 10 =
      (.ok { value := ["m1", "m2"], searchInfo := none },
       ["combined-search", "single-term-subject"]) ∧
    (progressive_search c6_api c6_terms c6_filters 10).1 ≠
      .ok { value := ["m1", "m2"], searchInfo := some c6_claimed_info } := by
  constructor
  · decide
  · decide

/-- C6 amended: whenever the combined search returns zero results and the
subject-only search returns a non-empty list `v`, the orchestrator returns
exactly `v` and its internal attempts list is
["combined-search", "single-term-subject"]; the strategies are only tracked
internally — the returned response itself carries no `_searchInfo` record
(that field is attached only by the final recent-emails fallback). -/
theorem progressive_search_subject_fallback (api : GraphApi) (count : Nat)
    (v : List String)
    (h0 : api 0 (build_search_params c6_terms c6_filters count) = .ok [])
    (h1 : api 1 (single_term_params "subject" "Invoice" c6_filters count) =
      .ok v)
    (hv : v ≠ []) :
    progressive_search api c6_terms c6_filters count =
      (.ok { value := v, searchInfo := none },
       ["combined-search", "single-term-subject"]) := by
  simp [progressive_search, search_priority, try_single_terms,
    get_search_term, h0, h1, hv, show c6_terms.subject = "Invoice" from rfl]

/-- C6 amended witness: the concrete oracle `c6_api` realizes the scenario. -/
theorem progressive_search_subject_fallback_witness :
    progressive_search c6_api c6_terms c6_filters 10 =
      (.ok { value := ["m1", "m2"], searchInfo := none },
       ["combined-search", "single-term-subject"]) :=
  progressive_search_subject_fallback c6_api 10 ["m1", "m2"] (by decide)
    (by decide) (by decide)

end OutlookMcp
